import Mathlib

/-!
# Verification of `redzer_automate.py`

A shallow embedding of the project-scaffolding script `src/redzer_automate.py`.
Filesystem paths are lists of segments (`pathlib.Path` components), the
filesystem is a finite association list from paths to nodes (directories or
files with string content), and the workflow is a state-passing translation of
the script's functions: `load_config`, `write_file`, `read_file`,
`run_command`, `create_directories` and `initialize_project`.  External
behaviour (the process environment, the YAML parser, and the exit codes and
output of the external commands) is abstracted into a `World` record that the
workflow is parameterised over.  Python exceptions are modelled with
`Except (Err × WfState)`: an error carries the state at the point where it was
raised, so that "no filesystem action happened before the failure" is a
statement about the carried state.
-/

/-- A filesystem path, as the list of its segments (`pathlib.Path` parts). -/
abbrev FPath := List String

/-- `leads p q` holds when `q` is at or below the directory `p`, i.e. `p` is
an initial segment of `q`.  `shutil.rmtree p` removes exactly the entries that
`p` leads to. -/
def leads : FPath → FPath → Bool
  | [], _ => true
  | _ :: _, [] => false
  | a :: p, b :: q => if a = b then leads p q else false

/-- `childOf p q = some n` exactly when `q = p ++ [n]`: the name of `q` as a
direct child of the directory `p`. -/
def childOf : FPath → FPath → Option String
  | [], [n] => some n
  | [], [] => none
  | [], _ :: _ :: _ => none
  | _ :: _, [] => none
  | a :: p, b :: q => if a = b then childOf p q else none

/-- `str()` of a path: its segments joined with the path separator.  (The
script only ever interpolates whole paths into command strings, so the choice
of separator is irrelevant to every property proved below.) -/
def render (p : FPath) : String := String.intercalate "/" p

/-- A filesystem node: a directory, or a file with its byte content. -/
inductive Node where
  | dir : Node
  | file (content : String) : Node
deriving DecidableEq, Repr

instance : Inhabited Node := ⟨Node.dir⟩

/-- The filesystem: an association list from paths to nodes (first match
wins). -/
structure FS where
  entries : List (FPath × Node)
deriving DecidableEq, Repr

namespace FS

/-- The node stored at `p`, if any. -/
def lookup (fs : FS) (p : FPath) : Option Node :=
  (fs.entries.find? (fun e => e.1 == p)).map (fun e => e.2)

/-- `os.path.exists` / `Path.exists`: true for a file or a directory. -/
def existsPath (fs : FS) (p : FPath) : Bool := (fs.lookup p).isSome

/-- Whether `p` names a regular file. -/
def isFile (fs : FS) (p : FPath) : Bool :=
  match fs.lookup p with
  | some (.file _) => true
  | _ => false

/-- Replace (or create) the entry at `p`. -/
def setEntry (fs : FS) (p : FPath) (n : Node) : FS :=
  ⟨(p, n) :: fs.entries.filter (fun e => !(e.1 == p))⟩

/-- `Path.mkdir`. -/
def mkdir (fs : FS) (p : FPath) : FS := fs.setEntry p .dir

/-- `open(p, 'w'); write(content)`: create or truncate the file at `p`. -/
def writeFile (fs : FS) (p : FPath) (c : String) : FS := fs.setEntry p (.file c)

/-- `open(p, 'r'); read()`: the content of the file at `p`, when `p` names a
file. -/
def readFile (fs : FS) (p : FPath) : Option String :=
  match fs.lookup p with
  | some (.file c) => some c
  | _ => none

/-- `shutil.rmtree p` on a directory: remove `p` and everything below it. -/
def rmtree (fs : FS) (p : FPath) : FS :=
  ⟨fs.entries.filter (fun e => !(leads p e.1))⟩

/-- All entries at or below `p`, in storage order. -/
def subtree (fs : FS) (p : FPath) : List (FPath × Node) :=
  fs.entries.filter (fun e => leads p e.1)

/-- The names of the direct children of the directory `p`. -/
def childNames (fs : FS) (p : FPath) : List String :=
  fs.entries.filterMap (fun e => childOf p e.1)

end FS

/-- A line written through `logging`. -/
inductive LogEntry where
  | info (msg : String)
  | error (msg : String)
deriving DecidableEq, Repr

/-- The workflow's observable state: the filesystem, the log, and the external
commands issued so far (in order). -/
structure WfState where
  fs : FS
  log : List LogEntry
  issued : List String
deriving DecidableEq, Repr

/-- The Python exceptions the script can raise (and never catches). -/
inductive Err where
  | keyLookup (key : String)
  | subscriptNone (key : String)
  | openFailed (p : FPath)
  | parseFailure (msg : String)
  | notADirectory (p : FPath)
deriving DecidableEq, Repr

/-- Failures caused by looking a key up in the configuration: `KeyError` on a
mapping, or `TypeError` when subscripting the `None` that an empty YAML
document parses to. -/
def Err.isLookup : Err → Bool
  | .keyLookup _ => true
  | .subscriptNone _ => true
  | _ => false

/-- The configuration mapping: the four fields `initialize_project` reads,
each possibly absent.  `project_dir` is held as a path (the script feeds the
string field straight to `Path`). -/
structure ConfigMap where
  project_name : Option String
  project_dir : Option FPath
  venv_dir : Option String
  requirements_file : Option String
deriving DecidableEq, Repr

/-- `config[key]` as the script performs it, unguarded: `TypeError` when the
parsed document is `None`, `KeyError` when the field is absent.  The error
carries the workflow state at the point of the lookup. -/
def cfgGet {α : Type} (config : Option ConfigMap) (key : String)
    (field : ConfigMap → Option α) (st : WfState) : Except (Err × WfState) α :=
  match config with
  | none => .error (.subscriptNone key, st)
  | some m =>
    match field m with
    | none => .error (.keyLookup key, st)
    | some v => .ok v

/-- A process environment mapping (`os.environ` and copies of it). -/
abbrev EnvMap := List (String × String)

/-- `env[k]`, if present. -/
def envGet (e : EnvMap) (k : String) : Option String :=
  (e.find? (fun x => x.1 == k)).map (fun x => x.2)

/-- `env[k] = v`. -/
def envSet (e : EnvMap) (k v : String) : EnvMap :=
  (k, v) :: e.filter (fun x => !(x.1 == k))

/-- What `subprocess.run` reports for one command: exit code and captured
output streams. -/
structure CmdResult where
  exitCode : Nat
  stdout : String
  stderr : String
deriving DecidableEq, Repr
/-- The `setup_content` template string of `create_directories` (verbatim). -/
def setup_content : String := String.intercalate "\n" [
  "from setuptools import setup, find_packages",
  "",
  "setup(",
  "    name='Redzer',",
  "    version='0.1',",
  "    packages=find_packages(),",
  "    install_requires=[",
  "        'requests',",
  "        'python-nmap',",
  "        'pytest',",
  "        'numpy',",
  "        'scikit-learn',",
  "        'scapy',",
  "        'tkinter',",
  "        'PyQt5',",
  "        'metasploit-py',",
  "        'johnny',",
  "    ],",
  "    entry_points=\x7b\x7b",
  "        'console_scripts': [",
  "            'redzer-cli = cli:main',",
  "        ],",
  "    \x7d\x7d,",
  "    description='A Red Teaming Automation Tool',",
  "    long_description=\"\"\"Redzer is a Python-based tool designed to automate various tasks commonly used during Red Team engagements. ",
  "    It provides functionalities for network scanning, vulnerability assessment, exploitation, and post-exploitation activities. ",
  "    This tool is intended for educational purposes and penetration testing professionals. ",
  "    Use it responsibly and ethically.\"\"\",",
  "    long_description_content_type=\"text/markdown\",",
  "    author='Your Name',",
  "    author_email='youremail@example.com',",
  "    url='https://github.com/yourusername/redzer',",
  "    license='MIT',",
  "    keywords='redteam security automation pentest',",
  "    platforms='any',",
  "    classifiers=[",
  "        'Development Status :: 3 - Alpha',",
  "        'Intended Audience :: Security Professionals',",
  "        'License :: OSI Approved :: MIT License',",
  "        'Operating System :: OS Independent',",
  "        'Programming Language :: Python :: 3',",
  "        'Topic :: Security :: Penetration Testing',",
  "    ],",
  ")"
] ++ "\n"

/-- The `redzer_spec_content` template string of `create_directories` (verbatim). -/
def redzer_spec_content : String := String.intercalate "\n" [
  "# redzer.spec",
  "block_cipher = None",
  "",
  "a = Analysis(['cli.py'],",
  "       pathex=['.'],",
  "       binaries=[],",
  "       datas=[('config.yaml', '.')],",
  "       hiddenimports=[],",
  "       hookspath=[],",
  "       runtime_hooks=[],",
  "       excludes=[],",
  "       winnoexcludes=[],",
  "       cipher=block_cipher,",
  "       noarchive=False)",
  "pyz = PYZ(a.pure, a.zipped_data,",
  "       cipher=block_cipher)",
  "exe = EXE(pyz,",
  "     a.scripts,",
  "     a.binaries,",
  "     a.zipfiles,",
  "     a.datas,",
  "     [],",
  "     name='redzer',",
  "     debug=False,",
  "     bootloader_ignore_signals=False,",
  "     strip=False,",
  "     upx=True,",
  "     upx_exclude=[],",
  "     runtime_tmpdir=None,",
  "     console=True, icon='icon.ico')",
  "coll = COLLECT(exe,",
  "        a.binaries,",
  "        a.zipfiles,",
  "        a.datas,",
  "        strip=False,",
  "        upx=True,",
  "        upx_exclude=[],",
  "        runtime_tmpdir=None)"
] ++ "\n"

/-- The `redzer_installer_content` template string of `create_directories` (verbatim). -/
def redzer_installer_content : String := String.intercalate "\n" [
  "; redzer_installer.iss",
  "[Setup]",
  "AppName=Redzer",
  "AppVersion=0.1",
  "DefaultDirName=\x7bpf\x7d\\Redzer",
  "DefaultGroupName=Redzer",
  "OutputBaseFilename=redzer_installer",
  "Compression=lzma",
  "SolidCompression=yes",
  "",
  "[Languages]",
  "Name: \"english\"; MessagesFile: \"compiler:Default.isl\"",
  "",
  "[Tasks]",
  "Name: \"desktopicon\"; Description: \"\x7bcm:CreateDesktopIcon\x7d\"; GroupDescription: \"\x7bcm:AdditionalIcons\x7d\"; Flags: checkedonce",
  "",
  "[Files]",
  "Source: \"dist\\redzer.exe\"; DestDir: \"\x7bapp\x7d\"; Flags: ignoreversion",
  "Source: \"config.yaml\"; DestDir: \"\x7bapp\x7d\"; Flags: ignoreversion",
  "",
  "[Icons]",
  "Name: \"\x7bgroup\x7d\\Redzer\"; Filename: \"\x7bapp\x7d\\redzer.exe\"",
  "Name: \"\x7bcommondesktop\x7d\\Redzer\"; Filename: \"\x7bapp\x7d\\redzer.exe\"; Tasks: desktopicon",
  "",
  "[Run]",
  "Filename: \"\x7bapp\x7d\\redzer.exe\"; Description: \"\x7bcm:LaunchProgram,Redzer\x7d\"; Flags: nowait postinstall skipifsilent"
] ++ "\n"


/-- The environment the workflow runs in: the initial filesystem, the process
environment, and the two external collaborators the script delegates to — the
YAML parser (out of scope per the spec, abstracted as a function from file
text to a parsed document or a parse error) and the shell (a function from a
command line and optional environment overlay to an exit code with captured
output). -/
structure World where
  fs : FS
  environ : EnvMap
  yamlParse : String → Except String (Option ConfigMap)
  exec : String → Option EnvMap → CmdResult

/-- `write_file(filepath, content)`: write the file, log `Created {filepath}`. -/
def write_file (st : WfState) (filepath : FPath) (content : String) : WfState :=
  let s := render filepath
  { st with fs := st.fs.writeFile filepath content,
            log := st.log ++ [.info s!"Created {s}"] }

/-- `read_file(filepath)`: the file's content, or the uncaught exception
`open` raises when `filepath` does not name a file. -/
def read_file (st : WfState) (filepath : FPath) : Except (Err × WfState) String :=
  match st.fs.readFile filepath with
  | some c => .ok c
  | none => .error (.openFailed filepath, st)

/-- `run_command(command, env)`: run the command to completion, record it as
issued; on exit code 0 log the success and captured stdout, otherwise catch
the `CalledProcessError` and log the failure with the captured stderr.  The
function is total: a non-zero exit never raises past this point. -/
def run_command (ex : String → Option EnvMap → CmdResult) (st : WfState)
    (command : String) (env : Option EnvMap) : WfState :=
  let st := { st with issued := st.issued ++ [command] }
  let r := ex command env
  if r.exitCode = 0 then
    { st with log := st.log ++ [.info s!"Command succeeded: {command}", .info r.stdout] }
  else
    { st with log := st.log ++ [.error s!"Command failed: {command}", .error r.stderr] }

/-- `create_directories(project_dir, template_dir)`: if the target exists,
log and recursively delete it (`shutil.rmtree` raises `NotADirectoryError`
when the target is a plain file); then create the project directory and its
five fixed subdirectories, and write the three template files into
`template_dir`, in the source's (dict-insertion) order. -/
def create_directories (st : WfState) (project_dir template_dir : FPath) :
    Except (Err × WfState) WfState := do
  let st ←
    if st.fs.existsPath project_dir then
      let s := render project_dir
      let st := { st with log := st.log ++ [.info s!"Removing existing project directory: {s}"] }
      if st.fs.isFile project_dir then
        Except.error (.notADirectory project_dir, st)
      else
        Except.ok { st with fs := st.fs.rmtree project_dir }
    else
      Except.ok st
  let fs := st.fs.mkdir project_dir
  let fs := fs.mkdir (project_dir ++ ["modules"])
  let fs := fs.mkdir (project_dir ++ ["services"])
  let fs := fs.mkdir (project_dir ++ ["caching"])
  let fs := fs.mkdir (project_dir ++ ["tests"])
  let fs := fs.mkdir (project_dir ++ ["templates"])
  let st := { st with fs := fs, log := st.log ++ [.info "Created project directory structure"] }
  let st := write_file st (template_dir ++ ["setup_template.py"]) setup_content
  let st := write_file st (template_dir ++ ["redzer_template.spec"]) redzer_spec_content
  let st := write_file st (template_dir ++ ["redzer_installer_template.iss"]) redzer_installer_content
  pure st

/-- `initialize_project(config)`: the whole workflow after the configuration
is loaded — resolve the four configuration fields, reset the directory tree,
round-trip the three templates to the project root, then issue the five
external commands in order.  Configuration lookups, template reads and the
environment's `PATH` lookup happen at exactly the points the source performs
them, so an error carries the state reached at that point. -/
def initialize_project (w : World) (config : Option ConfigMap) (st : WfState) :
    Except (Err × WfState) WfState := do
  let project_name ← cfgGet config "project_name" ConfigMap.project_name st
  let pdirRoot ← cfgGet config "project_dir" ConfigMap.project_dir st
  let project_dir := pdirRoot ++ [project_name]
  let template_dir := project_dir ++ ["templates"]
  let venvSeg ← cfgGet config "venv_dir" ConfigMap.venv_dir st
  let venv_dir := project_dir ++ [venvSeg]
  let st := { st with log := st.log ++ [.info "Initializing project..."] }
  let st ← create_directories st project_dir template_dir
  let setup_path := project_dir ++ ["setup.py"]
  let setupRead ← read_file st (template_dir ++ ["setup_template.py"])
  let st := write_file st setup_path setupRead
  let spec_path := project_dir ++ ["redzer.spec"]
  let specRead ← read_file st (template_dir ++ ["redzer_template.spec"])
  let st := write_file st spec_path specRead
  let inno_setup_path := project_dir ++ ["redzer_installer.iss"]
  let innoRead ← read_file st (template_dir ++ ["redzer_installer_template.iss"])
  let st := write_file st inno_setup_path innoRead
  let vstr := render venv_dir
  let st := run_command w.exec st s!"python -m venv {vstr}" none
  let activate_env := render (venv_dir ++ ["Scripts", "activate"])
  let reqSeg ← cfgGet config "requirements_file" ConfigMap.requirements_file st
  let pipStr := render (venv_dir ++ ["Scripts", "pip"])
  let reqStr := render (project_dir ++ [reqSeg])
  let pip_install := s!"{pipStr} install -r {reqStr}"
  let pyinstaller_install := s!"{pipStr} install pyinstaller"
  let env := envSet w.environ "VIRTUAL_ENV" vstr
  let scriptsStr := render (venv_dir ++ ["Scripts"])
  let oldPath ←
    match envGet env "PATH" with
    | some v => Except.ok v
    | none => Except.error (Err.keyLookup "PATH", st)
  let env := envSet env "PATH" s!"{scriptsStr};{oldPath}"
  let st := run_command w.exec st s!"{activate_env} && {pip_install}" (some env)
  let st := run_command w.exec st s!"{activate_env} && {pyinstaller_install}" (some env)
  let pyiStr := render (venv_dir ++ ["Scripts", "pyinstaller"])
  let specStr := render spec_path
  let st := run_command w.exec st s!"{pyiStr} {specStr}" (some env)
  let innoStr := render inno_setup_path
  let st := run_command w.exec st s!"ISCC {innoStr}" none
  let st := { st with log := st.log ++ [.info "Project initialization complete"] }
  pure st

/-- What one stage of the top level does next: terminate the process (the
`exit(1)` call), propagate an uncaught exception, or continue with a value. -/
inductive Step (α : Type) where
  | exit (code : Nat)
  | raise (e : Err)
  | next (a : α)
deriving Repr

/-- `load_config(config_file)`: when nothing exists at the path, log the error
and call `exit(1)`; otherwise open and parse the file — `open` raises when the
existing entry is not a regular file, and the parser's error propagates
uncaught.  No validation is performed on the parsed document. -/
def load_config (w : World) (config_file : FPath) (log : List LogEntry) :
    List LogEntry × Step (Option ConfigMap) :=
  if w.fs.existsPath config_file then
    match w.fs.readFile config_file with
    | none => (log, .raise (.openFailed config_file))
    | some text =>
      match w.yamlParse text with
      | .error msg => (log, .raise (.parseFailure msg))
      | .ok config => (log, .next config)
  else
    let s := render config_file
    (log ++ [.error s!"Configuration file not found: {s}"], .exit 1)

/-- How a whole run ends, seen from the outside: the explicit `exit` call, an
uncaught exception (also a non-zero process exit, but without the logged
message), or normal completion. -/
inductive Outcome where
  | fatalExit (code : Nat)
  | raised (e : Err)
  | ok
deriving DecidableEq, Repr

/-- Whether the run ended through the explicit `exit` call. -/
def Outcome.isFatal : Outcome → Bool
  | .fatalExit _ => true
  | _ => false

/-- Modelled from the spec: the `__main__` entry sequence.  The source file's
`__main__` block is truncated mid-statement (it breaks off inside
`config = load_config(args.config_file`), so the composition — parse the
config-file argument, `load_config`, then `initialize_project` on the loaded
document — is taken from the spec's workflow description (§2, §4.1).  The
argument-parsing itself is out of scope; the chosen configuration path is the
parameter. -/
def mainRun (w : World) (config_file : FPath) : Outcome × WfState :=
  let st0 : WfState := { fs := w.fs, log := [], issued := [] }
  match load_config w config_file st0.log with
  | (log, .exit c) => (.fatalExit c, { st0 with log := log })
  | (log, .raise e) => (.raised e, { st0 with log := log })
  | (log, .next config) =>
    match initialize_project w config { st0 with log := log } with
    | .error (e, st) => (.raised e, st)
    | .ok st => (.ok, st)

/-! ## Basic lemmas about paths, lists and the filesystem model -/

theorem exceptBind_ok {ε α β : Type} (a : α) (f : α → Except ε β) :
    (Except.ok a >>= f : Except ε β) = f a := rfl

theorem exceptBind_error {ε α β : Type} (e : ε) (f : α → Except ε β) :
    (Except.error e >>= f : Except ε β) = Except.error e := rfl

theorem leads_refl (p : FPath) : leads p p = true := by
  induction p with
  | nil => rfl
  | cons a p ih => simp [leads, ih]

theorem leads_append (p q : FPath) : leads p (p ++ q) = true := by
  induction p with
  | nil => rfl
  | cons a p ih => simp [leads, ih]

theorem app_inj {p l1 l2 : FPath} : (p ++ l1 = p ++ l2) ↔ l1 = l2 := by
  constructor
  · exact fun h => List.append_cancel_left h
  · intro h; rw [h]

theorem app_eq_self_iff {p l : FPath} : (p ++ l = p) ↔ l = [] := by
  constructor
  · intro h
    have h2 : p ++ l = p ++ [] := by simpa using h
    exact app_inj.mp h2
  · intro h; simp [h]

theorem self_eq_app_iff {p l : FPath} : (p = p ++ l) ↔ l = [] := by
  rw [eq_comm]; exact app_eq_self_iff

theorem childOf_append (p q : FPath) :
    childOf p (p ++ q) = (match q with | [n] => some n | _ => none) := by
  induction p with
  | nil =>
    cases q with
    | nil => rfl
    | cons a t => cases t <;> rfl
  | cons a p ih => simpa [childOf] using ih

theorem childOf_self (p : FPath) : childOf p p = none := by
  have h := childOf_append p []
  simpa using h

theorem childOf_leads {p q : FPath} {n : String} (h : childOf p q = some n) :
    leads p q = true := by
  induction p generalizing q with
  | nil =>
    cases q with
    | nil => simp [childOf] at h
    | cons a t => rfl
  | cons a p ih =>
    cases q with
    | nil => simp [childOf] at h
    | cons b t =>
      by_cases hab : a = b
      · subst hab
        simp only [childOf, if_true, eq_self_iff_true] at h
        simpa [leads] using ih (by simpa using h)
      · simp [childOf, hab] at h

theorem childOf_eq_none_of_not_leads {p q : FPath} (h : leads p q = false) :
    childOf p q = none := by
  cases hc : childOf p q with
  | none => rfl
  | some n => rw [childOf_leads hc] at h; cases h

theorem find_filter_imp {α : Type} (l : List α) (pr q : α → Bool)
    (h : ∀ e, q e = true → pr e = true) :
    (l.filter pr).find? q = l.find? q := by
  induction l with
  | nil => rfl
  | cons a l ih =>
    by_cases hq : q a = true
    · simp [List.filter_cons, h a hq, List.find?_cons, hq]
    · by_cases hp : pr a = true
      · simp [List.filter_cons, hp, List.find?_cons, hq, ih]
      · simp [List.filter_cons, hp, List.find?_cons, hq, ih]

theorem filterMap_filter_none {α β : Type} (l : List α) (pr : α → Bool) (f : α → Option β)
    (h : ∀ e, pr e = false → f e = none) :
    (l.filter pr).filterMap f = l.filterMap f := by
  induction l with
  | nil => rfl
  | cons a l ih =>
    by_cases hp : pr a = true
    · simp [List.filter_cons, hp, List.filterMap_cons, ih]
    · have hfa : f a = none := h a (by simpa using hp)
      simp [List.filter_cons, hp, List.filterMap_cons, hfa, ih]

/-- No entry of `l` lies at or below `p`. -/
def noneUnder (l : List (FPath × Node)) (p : FPath) : Prop :=
  ∀ e ∈ l, leads p e.1 = false

theorem noneUnder_rmtree (fs : FS) (p : FPath) : noneUnder (fs.rmtree p).entries p := by
  intro e he
  simp only [FS.rmtree, List.mem_filter] at he
  simpa using he.2

theorem noneUnder_of_subtree_nil {fs : FS} {p : FPath} (h : fs.subtree p = []) :
    noneUnder fs.entries p := by
  intro e he
  by_contra hc
  have hl : leads p e.1 = true := by revert hc; cases leads p e.1 <;> simp
  have hmem : e ∈ fs.subtree p := by
    simp [FS.subtree, List.mem_filter, he, hl]
  rw [h] at hmem
  cases hmem

theorem subtree_nil_of_noneUnder {fs : FS} {p : FPath} (h : noneUnder fs.entries p) :
    fs.subtree p = [] := by
  simp only [FS.subtree]
  rw [List.filter_eq_nil_iff]
  intro e he
  simp [h e he]

theorem subtree_setEntry {fs : FS} {pd q : FPath} {n : Node} {l : List (FPath × Node)}
    (hq : leads pd q = true) (hsub : fs.subtree pd = l) (hmem : ∀ e ∈ l, e.1 ≠ q) :
    (fs.setEntry q n).subtree pd = (q, n) :: l := by
  simp only [FS.setEntry, FS.subtree] at *
  rw [List.filter_cons]
  simp only [hq, if_true]
  congr 1
  rw [List.filter_filter]
  have hcomm : fs.entries.filter (fun e => leads pd e.1 && !(e.1 == q))
      = fs.entries.filter (fun e => leads pd e.1) := by
    rw [← hsub] at hmem
    apply List.filter_congr
    intro e he
    by_cases hl : leads pd e.1 = true
    · have he2 : e ∈ fs.entries.filter (fun e => leads pd e.1) := by
        simp [List.mem_filter, he, hl]
      have hne : e.1 ≠ q := hmem e he2
      simp [hl, hne]
    · simp at hl
      simp [hl]
  rw [hcomm, hsub]

theorem lookup_subtree {fs : FS} {pd p : FPath} (hp : leads pd p = true) :
    fs.lookup p = (FS.mk (fs.subtree pd)).lookup p := by
  have h2 : ∀ e : FPath × Node, (e.1 == p) = true → leads pd e.1 = true := by
    intro e he
    have h3 : e.1 = p := by simpa using he
    rw [h3]; exact hp
  simp only [FS.lookup, FS.subtree, find_filter_imp _ _ _ h2]

theorem childNames_subtree (fs : FS) (pd : FPath) :
    fs.childNames pd = (FS.mk (fs.subtree pd)).childNames pd := by
  simp only [FS.childNames, FS.subtree]
  rw [filterMap_filter_none]
  intro e he
  exact childOf_eq_none_of_not_leads he

theorem lookup_setEntry_self (fs : FS) (p : FPath) (n : Node) :
    (fs.setEntry p n).lookup p = some n := by
  simp [FS.setEntry, FS.lookup, List.find?_cons]

theorem lookup_setEntry_ne {p q : FPath} (fs : FS) (n : Node) (h : p ≠ q) :
    (fs.setEntry p n).lookup q = fs.lookup q := by
  have h2 : ∀ e : FPath × Node, (e.1 == q) = true → (!(e.1 == p)) = true := by
    intro e he
    have h3 : e.1 = q := by simpa using he
    simp [h3, Ne.symm h]
  simp [FS.setEntry, FS.lookup, List.find?_cons, h, find_filter_imp _ _ _ h2]

theorem readFile_writeFile_self (fs : FS) (p : FPath) (c : String) :
    (fs.writeFile p c).readFile p = some c := by
  simp [FS.writeFile, FS.readFile, lookup_setEntry_self]

theorem readFile_writeFile_ne {p q : FPath} (fs : FS) (c : String) (h : p ≠ q) :
    (fs.writeFile p c).readFile q = fs.readFile q := by
  simp [FS.writeFile, FS.readFile, lookup_setEntry_ne fs _ h]

theorem existsPath_of_readFile {fs : FS} {p : FPath} {t : String}
    (h : fs.readFile p = some t) : fs.existsPath p = true := by
  unfold FS.readFile at h
  unfold FS.existsPath
  cases hl : fs.lookup p with
  | none => rw [hl] at h; cases h
  | some n => simp [hl]

theorem run_command_fs (ex : String → Option EnvMap → CmdResult) (st : WfState)
    (command : String) (env : Option EnvMap) :
    (run_command ex st command env).fs = st.fs := by
  unfold run_command
  dsimp only
  split <;> rfl

theorem run_command_issued (ex : String → Option EnvMap → CmdResult) (st : WfState)
    (command : String) (env : Option EnvMap) :
    (run_command ex st command env).issued = st.issued ++ [command] := by
  unfold run_command
  dsimp only
  split <;> rfl

theorem run_command_fail (ex : String → Option EnvMap → CmdResult) (st : WfState)
    (command : String) (env : Option EnvMap) (h : (ex command env).exitCode ≠ 0) :
    run_command ex st command env =
      { st with issued := st.issued ++ [command],
                log := st.log ++ [.error s!"Command failed: {command}",
                                  .error (ex command env).stderr] } := by
  unfold run_command
  simp [h]

theorem envGet_envSet_ne {k k' : String} (e : EnvMap) (v : String) (h : k ≠ k') :
    envGet (envSet e k v) k' = envGet e k' := by
  have h2 : ∀ x : String × String, (x.1 == k') = true → (!(x.1 == k)) = true := by
    intro x hx
    have h3 : x.1 = k' := by simpa using hx
    simp [h3, Ne.symm h]
  simp [envSet, envGet, List.find?_cons, h, find_filter_imp _ _ _ h2]

/-! ## The directory reset in closed form -/

/-- The filesystem produced by the unconditional part of `create_directories`
(the six `mkdir`s and the three template writes), applied to a base
filesystem. -/
def createdFS (fs : FS) (pd td : FPath) : FS :=
  ((((((fs.mkdir pd).mkdir (pd ++ ["modules"])).mkdir (pd ++ ["services"])).mkdir
      (pd ++ ["caching"])).mkdir (pd ++ ["tests"])).mkdir (pd ++ ["templates"])).writeFile
      (td ++ ["setup_template.py"]) setup_content |>.writeFile
      (td ++ ["redzer_template.spec"]) redzer_spec_content |>.writeFile
      (td ++ ["redzer_installer_template.iss"]) redzer_installer_content

/-- The log lines the unconditional part of `create_directories` appends. -/
def createLogs (td : FPath) : List LogEntry :=
  let s1 := render (td ++ ["setup_template.py"])
  let s2 := render (td ++ ["redzer_template.spec"])
  let s3 := render (td ++ ["redzer_installer_template.iss"])
  [ .info "Created project directory structure",
    .info s!"Created {s1}", .info s!"Created {s2}", .info s!"Created {s3}" ]

/-- The project subtree after a successful reset: exactly the five fixed
subdirectories, the project directory itself, and the three template files
(most recently written first). -/
def freshEntries (pd : FPath) : List (FPath × Node) :=
  [ ((pd ++ ["templates"]) ++ ["redzer_installer_template.iss"], .file redzer_installer_content),
    ((pd ++ ["templates"]) ++ ["redzer_template.spec"], .file redzer_spec_content),
    ((pd ++ ["templates"]) ++ ["setup_template.py"], .file setup_content),
    (pd ++ ["templates"], .dir),
    (pd ++ ["tests"], .dir),
    (pd ++ ["caching"], .dir),
    (pd ++ ["services"], .dir),
    (pd ++ ["modules"], .dir),
    (pd, .dir) ]

theorem create_directories_skip (st : WfState) (pd td : FPath)
    (h : st.fs.existsPath pd = false) :
    create_directories st pd td =
      .ok { fs := createdFS st.fs pd td,
            log := st.log ++ createLogs td,
            issued := st.issued } := by
  simp [create_directories, h, write_file, createdFS, createLogs, List.append_assoc]

theorem create_directories_rm (st : WfState) (pd td : FPath)
    (h1 : st.fs.existsPath pd = true) (h2 : st.fs.isFile pd = false) :
    create_directories st pd td =
      .ok { fs := createdFS (st.fs.rmtree pd) pd td,
            log := (st.log ++ [.info s!"Removing existing project directory: {render pd}"])
                     ++ createLogs td,
            issued := st.issued } := by
  simp [create_directories, h1, h2, write_file, createdFS, createLogs, List.append_assoc]

theorem create_directories_file_target (st : WfState) (pd td : FPath)
    (h2 : st.fs.isFile pd = true) :
    create_directories st pd td =
      .error (.notADirectory pd,
              { st with log := st.log ++
                  [.info s!"Removing existing project directory: {render pd}"] }) := by
  have h1 : st.fs.existsPath pd = true := by
    unfold FS.isFile at h2
    unfold FS.existsPath
    cases hl : st.fs.lookup pd with
    | none => rw [hl] at h2; cases h2
    | some n => simp [hl]
  simp [create_directories, h1, h2]

theorem createdFS_subtree (fs : FS) (pd : FPath) (h : noneUnder fs.entries pd) :
    (createdFS fs pd (pd ++ ["templates"])).subtree pd = freshEntries pd := by
  have h0 : fs.subtree pd = [] := subtree_nil_of_noneUnder h
  have h1 : (fs.mkdir pd).subtree pd = [(pd, .dir)] :=
    subtree_setEntry (leads_refl pd) h0 (by simp)
  have h2 : ((fs.mkdir pd).mkdir (pd ++ ["modules"])).subtree pd
      = [(pd ++ ["modules"], .dir), (pd, .dir)] :=
    subtree_setEntry (leads_append pd _) h1 (by simp [self_eq_app_iff])
  have h3 : (((fs.mkdir pd).mkdir (pd ++ ["modules"])).mkdir (pd ++ ["services"])).subtree pd
      = [(pd ++ ["services"], .dir), (pd ++ ["modules"], .dir), (pd, .dir)] :=
    subtree_setEntry (leads_append pd _) h2 (by simp [self_eq_app_iff, app_inj])
  have h4 : ((((fs.mkdir pd).mkdir (pd ++ ["modules"])).mkdir (pd ++ ["services"])).mkdir
        (pd ++ ["caching"])).subtree pd
      = [(pd ++ ["caching"], .dir), (pd ++ ["services"], .dir), (pd ++ ["modules"], .dir),
         (pd, .dir)] :=
    subtree_setEntry (leads_append pd _) h3 (by simp [self_eq_app_iff, app_inj])
  have h5 : (((((fs.mkdir pd).mkdir (pd ++ ["modules"])).mkdir (pd ++ ["services"])).mkdir
        (pd ++ ["caching"])).mkdir (pd ++ ["tests"])).subtree pd
      = [(pd ++ ["tests"], .dir), (pd ++ ["caching"], .dir), (pd ++ ["services"], .dir),
         (pd ++ ["modules"], .dir), (pd, .dir)] :=
    subtree_setEntry (leads_append pd _) h4 (by simp [self_eq_app_iff, app_inj])
  have h6 : ((((((fs.mkdir pd).mkdir (pd ++ ["modules"])).mkdir (pd ++ ["services"])).mkdir
        (pd ++ ["caching"])).mkdir (pd ++ ["tests"])).mkdir (pd ++ ["templates"])).subtree pd
      = [(pd ++ ["templates"], .dir), (pd ++ ["tests"], .dir), (pd ++ ["caching"], .dir),
         (pd ++ ["services"], .dir), (pd ++ ["modules"], .dir), (pd, .dir)] :=
    subtree_setEntry (leads_append pd _) h5 (by simp [self_eq_app_iff, app_inj])
  have hlt : ∀ x : String, leads pd ((pd ++ ["templates"]) ++ [x]) = true := by
    intro x
    rw [List.append_assoc]
    exact leads_append pd _
  have h7 : (((((((fs.mkdir pd).mkdir (pd ++ ["modules"])).mkdir (pd ++ ["services"])).mkdir
        (pd ++ ["caching"])).mkdir (pd ++ ["tests"])).mkdir (pd ++ ["templates"])).writeFile
        ((pd ++ ["templates"]) ++ ["setup_template.py"]) setup_content).subtree pd
      = ((pd ++ ["templates"]) ++ ["setup_template.py"], .file setup_content) ::
        [(pd ++ ["templates"], .dir), (pd ++ ["tests"], .dir), (pd ++ ["caching"], .dir),
         (pd ++ ["services"], .dir), (pd ++ ["modules"], .dir), (pd, .dir)] :=
    subtree_setEntry (hlt _) h6
      (by simp [List.append_assoc, self_eq_app_iff, app_inj])
  have h8 : ((((((((fs.mkdir pd).mkdir (pd ++ ["modules"])).mkdir (pd ++ ["services"])).mkdir
        (pd ++ ["caching"])).mkdir (pd ++ ["tests"])).mkdir (pd ++ ["templates"])).writeFile
        ((pd ++ ["templates"]) ++ ["setup_template.py"]) setup_content).writeFile
        ((pd ++ ["templates"]) ++ ["redzer_template.spec"]) redzer_spec_content).subtree pd
      = ((pd ++ ["templates"]) ++ ["redzer_template.spec"], .file redzer_spec_content) ::
        ((pd ++ ["templates"]) ++ ["setup_template.py"], .file setup_content) ::
        [(pd ++ ["templates"], .dir), (pd ++ ["tests"], .dir), (pd ++ ["caching"], .dir),
         (pd ++ ["services"], .dir), (pd ++ ["modules"], .dir), (pd, .dir)] :=
    subtree_setEntry (hlt _) h7
      (by simp [List.append_assoc, self_eq_app_iff, app_inj])
  have h9 : (((((((((fs.mkdir pd).mkdir (pd ++ ["modules"])).mkdir (pd ++ ["services"])).mkdir
        (pd ++ ["caching"])).mkdir (pd ++ ["tests"])).mkdir (pd ++ ["templates"])).writeFile
        ((pd ++ ["templates"]) ++ ["setup_template.py"]) setup_content).writeFile
        ((pd ++ ["templates"]) ++ ["redzer_template.spec"]) redzer_spec_content).writeFile
        ((pd ++ ["templates"]) ++ ["redzer_installer_template.iss"]) redzer_installer_content).subtree pd
      = ((pd ++ ["templates"]) ++ ["redzer_installer_template.iss"], .file redzer_installer_content) ::
        ((pd ++ ["templates"]) ++ ["redzer_template.spec"], .file redzer_spec_content) ::
        ((pd ++ ["templates"]) ++ ["setup_template.py"], .file setup_content) ::
        [(pd ++ ["templates"], .dir), (pd ++ ["tests"], .dir), (pd ++ ["caching"], .dir),
         (pd ++ ["services"], .dir), (pd ++ ["modules"], .dir), (pd, .dir)] :=
    subtree_setEntry (hlt _) h8
      (by simp [List.append_assoc, self_eq_app_iff, app_inj])
  exact h9

theorem beq_app_left_false (p : FPath) {l1 l2 : List String} (h : l1 ≠ l2) :
    (p ++ l1 == p ++ l2) = false := by
  have hne : p ++ l1 ≠ p ++ l2 := by simp [List.append_cancel_left_eq, h]
  simp [hne]

theorem beq_app_self_false (p : FPath) {l : List String} (h : l ≠ []) :
    (p ++ l == p) = false := by
  have hne : p ++ l ≠ p := by simp [app_eq_self_iff, h]
  simp [hne]

theorem beq_self_app_false (p : FPath) {l : List String} (h : l ≠ []) :
    (p == p ++ l) = false := by
  have hne : p ≠ p ++ l := by simp [self_eq_app_iff, h]
  simp [hne]

theorem createdFS_lookup_fresh {fs : FS} {pd : FPath} (h : noneUnder fs.entries pd)
    {p : FPath} (hp : leads pd p = true) :
    (createdFS fs pd (pd ++ ["templates"])).lookup p = (FS.mk (freshEntries pd)).lookup p := by
  rw [lookup_subtree hp, createdFS_subtree fs pd h]

theorem leads_td (pd : FPath) (x : String) :
    leads pd ((pd ++ ["templates"]) ++ [x]) = true := by
  rw [List.append_assoc]
  exact leads_append pd _

theorem fresh_readFile_setup (fs : FS) (pd : FPath) (h : noneUnder fs.entries pd) :
    (createdFS fs pd (pd ++ ["templates"])).readFile
        ((pd ++ ["templates"]) ++ ["setup_template.py"]) = some setup_content := by
  unfold FS.readFile
  rw [createdFS_lookup_fresh h (leads_td pd _)]
  simp [FS.lookup, freshEntries, List.find?, List.append_assoc, app_inj,
        self_eq_app_iff, app_eq_self_iff, List.append_cancel_left_eq,
        beq_app_left_false, beq_app_self_false, beq_self_app_false]

theorem fresh_readFile_spec (fs : FS) (pd : FPath) (h : noneUnder fs.entries pd) :
    (createdFS fs pd (pd ++ ["templates"])).readFile
        ((pd ++ ["templates"]) ++ ["redzer_template.spec"]) = some redzer_spec_content := by
  unfold FS.readFile
  rw [createdFS_lookup_fresh h (leads_td pd _)]
  simp [FS.lookup, freshEntries, List.find?, List.append_assoc, app_inj,
        self_eq_app_iff, app_eq_self_iff, List.append_cancel_left_eq,
        beq_app_left_false, beq_app_self_false, beq_self_app_false]

theorem fresh_readFile_inno (fs : FS) (pd : FPath) (h : noneUnder fs.entries pd) :
    (createdFS fs pd (pd ++ ["templates"])).readFile
        ((pd ++ ["templates"]) ++ ["redzer_installer_template.iss"]) = some redzer_installer_content := by
  unfold FS.readFile
  rw [createdFS_lookup_fresh h (leads_td pd _)]
  simp [FS.lookup, freshEntries, List.find?, List.append_assoc, app_inj,
        self_eq_app_iff, app_eq_self_iff, List.append_cancel_left_eq,
        beq_app_left_false, beq_app_self_false, beq_self_app_false]

theorem fresh_lookup_pd (fs : FS) (pd : FPath) (h : noneUnder fs.entries pd) :
    (createdFS fs pd (pd ++ ["templates"])).lookup pd = some .dir := by
  rw [createdFS_lookup_fresh h (leads_refl pd)]
  simp [FS.lookup, freshEntries, List.find?, List.append_assoc, app_inj,
        self_eq_app_iff, app_eq_self_iff, List.append_cancel_left_eq,
        beq_app_left_false, beq_app_self_false, beq_self_app_false]

theorem fresh_existsPath_pd (fs : FS) (pd : FPath) (h : noneUnder fs.entries pd) :
    (createdFS fs pd (pd ++ ["templates"])).existsPath pd = true := by
  simp [FS.existsPath, fresh_lookup_pd fs pd h]

theorem fresh_isFile_pd (fs : FS) (pd : FPath) (h : noneUnder fs.entries pd) :
    (createdFS fs pd (pd ++ ["templates"])).isFile pd = false := by
  simp [FS.isFile, fresh_lookup_pd fs pd h]

theorem fresh_lookup_subdir (fs : FS) (pd : FPath) (h : noneUnder fs.entries pd)
    (d : String) (hd : d ∈ ["modules", "services", "caching", "tests", "templates"]) :
    (createdFS fs pd (pd ++ ["templates"])).lookup (pd ++ [d]) = some .dir := by
  rw [createdFS_lookup_fresh h (leads_append pd _)]
  fin_cases hd <;>
    simp [FS.lookup, freshEntries, List.find?, List.append_assoc, app_inj,
          self_eq_app_iff, app_eq_self_iff, List.append_cancel_left_eq,
        beq_app_left_false, beq_app_self_false, beq_self_app_false]

theorem createdFS_childNames (fs : FS) (pd : FPath) (h : noneUnder fs.entries pd) :
    (createdFS fs pd (pd ++ ["templates"])).childNames pd
      = ["templates", "tests", "caching", "services", "modules"] := by
  rw [childNames_subtree, createdFS_subtree fs pd h]
  simp [FS.childNames, freshEntries, List.filterMap_cons, childOf_append, childOf_self,
        List.append_assoc]

theorem create_directories_ok (st : WfState) (pd : FPath)
    (hf : st.fs.isFile pd = false)
    (hn : st.fs.existsPath pd = false → noneUnder st.fs.entries pd) :
    ∃ fs0 lg, noneUnder fs0.entries pd ∧
      create_directories st pd (pd ++ ["templates"]) =
        .ok { fs := createdFS fs0 pd (pd ++ ["templates"]),
              log := st.log ++ lg, issued := st.issued } := by
  by_cases he : st.fs.existsPath pd = true
  · refine ⟨st.fs.rmtree pd,
      [.info s!"Removing existing project directory: {render pd}"]
        ++ createLogs (pd ++ ["templates"]),
      noneUnder_rmtree st.fs pd, ?_⟩
    rw [create_directories_rm st pd _ he hf]
    simp [List.append_assoc]
  · have he2 : st.fs.existsPath pd = false := by
      revert he; cases st.fs.existsPath pd <;> simp
    exact ⟨st.fs, createLogs (pd ++ ["templates"]), hn he2,
           create_directories_skip st pd _ he2⟩

/-- The five external command lines `initialize_project` issues, in order:
environment creation, dependency installation, packager installation, build,
and installer compilation. -/
def redzerCommands (pd : FPath) (vd rq : String) : List String :=
  let venv := pd ++ [vd]
  let vstr := render venv
  let activate_env := render (venv ++ ["Scripts", "activate"])
  let pipStr := render (venv ++ ["Scripts", "pip"])
  let reqStr := render (pd ++ [rq])
  let pip_install := s!"{pipStr} install -r {reqStr}"
  let pyinstaller_install := s!"{pipStr} install pyinstaller"
  let pyiStr := render (venv ++ ["Scripts", "pyinstaller"])
  let specStr := render (pd ++ ["redzer.spec"])
  let innoStr := render (pd ++ ["redzer_installer.iss"])
  [ s!"python -m venv {vstr}",
    s!"{activate_env} && {pip_install}",
    s!"{activate_env} && {pyinstaller_install}",
    s!"{pyiStr} {specStr}",
    s!"ISCC {innoStr}" ]

set_option maxHeartbeats 1000000 in
/-- Closed-form run of `initialize_project` on a configuration carrying all
four fields: it succeeds, issues exactly the five commands of
`redzerCommands` in order (whatever exit codes the shell returns), and leaves
the three root files and the three template files with the template string
contents. -/
theorem initialize_project_run (w : World) (m : ConfigMap) (st : WfState)
    (n : String) (pdr : FPath) (vd rq pv : String)
    (h1 : m.project_name = some n) (h2 : m.project_dir = some pdr)
    (h3 : m.venv_dir = some vd) (h4 : m.requirements_file = some rq)
    (hf : st.fs.isFile (pdr ++ [n]) = false)
    (hn : st.fs.existsPath (pdr ++ [n]) = false → noneUnder st.fs.entries (pdr ++ [n]))
    (hp : envGet w.environ "PATH" = some pv) :
    ∃ st', initialize_project w (some m) st = .ok st'
      ∧ st'.issued = st.issued ++ redzerCommands (pdr ++ [n]) vd rq
      ∧ st'.fs.readFile ((pdr ++ [n]) ++ ["setup.py"]) = some setup_content
      ∧ st'.fs.readFile ((pdr ++ [n]) ++ ["redzer.spec"]) = some redzer_spec_content
      ∧ st'.fs.readFile ((pdr ++ [n]) ++ ["redzer_installer.iss"]) = some redzer_installer_content
      ∧ st'.fs.readFile (((pdr ++ [n]) ++ ["templates"]) ++ ["setup_template.py"])
          = some setup_content
      ∧ st'.fs.readFile (((pdr ++ [n]) ++ ["templates"]) ++ ["redzer_template.spec"])
          = some redzer_spec_content
      ∧ st'.fs.readFile (((pdr ++ [n]) ++ ["templates"]) ++ ["redzer_installer_template.iss"])
          = some redzer_installer_content := by
  have e1 : cfgGet (some m) "project_name" ConfigMap.project_name st = .ok n := by
    simp [cfgGet, h1]
  have e2 : cfgGet (some m) "project_dir" ConfigMap.project_dir st = .ok pdr := by
    simp [cfgGet, h2]
  have e3 : cfgGet (some m) "venv_dir" ConfigMap.venv_dir st = .ok vd := by
    simp [cfgGet, h3]
  unfold initialize_project
  rw [e1, exceptBind_ok, e2, exceptBind_ok, e3, exceptBind_ok]
  dsimp only
  obtain ⟨fs0, lg, hnu, hceq⟩ :=
    create_directories_ok { st with log := st.log ++ [.info "Initializing project..."] }
      (pdr ++ [n]) hf hn
  rw [hceq, exceptBind_ok]
  have hrs := fresh_readFile_setup fs0 (pdr ++ [n]) hnu
  have hrp := fresh_readFile_spec fs0 (pdr ++ [n]) hnu
  have hri := fresh_readFile_inno fs0 (pdr ++ [n]) hnu
  have hvp : envGet (envSet w.environ "VIRTUAL_ENV" (render (pdr ++ ([n] ++ [vd])))) "PATH"
      = some pv := by
    rw [envGet_envSet_ne _ _ (by simp)]
    exact hp
  have e4 : ∀ s : WfState,
      cfgGet (some m) "requirements_file" ConfigMap.requirements_file s = Except.ok rq := by
    intro s
    simp [cfgGet, h4]
  simp only [List.append_assoc] at hrs hrp hri ⊢
  have w1 : ((createdFS fs0 (pdr ++ [n]) (pdr ++ ([n] ++ ["templates"]))).writeFile
      (pdr ++ ([n] ++ ["setup.py"])) setup_content).readFile
      (pdr ++ ([n] ++ (["templates"] ++ ["redzer_template.spec"]))) = some redzer_spec_content := by
    rw [readFile_writeFile_ne _ _ (by simp [List.append_cancel_left_eq])]
    exact hrp
  have w2 : (((createdFS fs0 (pdr ++ [n]) (pdr ++ ([n] ++ ["templates"]))).writeFile
      (pdr ++ ([n] ++ ["setup.py"])) setup_content).writeFile
      (pdr ++ ([n] ++ ["redzer.spec"])) redzer_spec_content).readFile
      (pdr ++ ([n] ++ (["templates"] ++ ["redzer_installer_template.iss"]))) = some redzer_installer_content := by
    rw [readFile_writeFile_ne _ _ (by simp [List.append_cancel_left_eq]),
        readFile_writeFile_ne _ _ (by simp [List.append_cancel_left_eq])]
    exact hri
  simp only [read_file, write_file, exceptBind_ok, hrs, w1, w2, hvp, e4, pure]
  refine ⟨_, rfl, ?_, ?_, ?_, ?_, ?_, ?_, ?_⟩
  · simp only [run_command_issued, write_file, redzerCommands, List.append_assoc,
               List.singleton_append, List.cons_append, List.nil_append]
  · simp only [List.append_assoc, run_command_fs]
    rw [readFile_writeFile_ne _ _ (by simp [List.append_cancel_left_eq]),
        readFile_writeFile_ne _ _ (by simp [List.append_cancel_left_eq]),
        readFile_writeFile_self]
  · simp only [List.append_assoc, run_command_fs]
    rw [readFile_writeFile_ne _ _ (by simp [List.append_cancel_left_eq]),
        readFile_writeFile_self]
  · simp only [List.append_assoc, run_command_fs]
    rw [readFile_writeFile_self]
  · simp only [List.append_assoc, run_command_fs]
    rw [readFile_writeFile_ne _ _ (by simp [List.append_cancel_left_eq]),
        readFile_writeFile_ne _ _ (by simp [List.append_cancel_left_eq]),
        readFile_writeFile_ne _ _ (by simp [List.append_cancel_left_eq])]
    exact hrs
  · simp only [List.append_assoc, run_command_fs]
    rw [readFile_writeFile_ne _ _ (by simp [List.append_cancel_left_eq]),
        readFile_writeFile_ne _ _ (by simp [List.append_cancel_left_eq]),
        readFile_writeFile_ne _ _ (by simp [List.append_cancel_left_eq])]
    exact hrp
  · simp only [List.append_assoc, run_command_fs]
    rw [readFile_writeFile_ne _ _ (by simp [List.append_cancel_left_eq]),
        readFile_writeFile_ne _ _ (by simp [List.append_cancel_left_eq]),
        readFile_writeFile_ne _ _ (by simp [List.append_cancel_left_eq])]
    exact hri

/-! ## Concrete worlds and states used by the witnesses -/

/-- An empty filesystem. -/
def emptyFS : FS := ⟨[]⟩

/-- A blank workflow state over the empty filesystem. -/
def blankState : WfState := ⟨emptyFS, [], []⟩

/-- A shell in which every command succeeds. -/
def okExec : String → Option EnvMap → CmdResult := fun _ _ => ⟨0, "", ""⟩

/-- A shell in which every command fails with exit code 1. -/
def failExec : String → Option EnvMap → CmdResult := fun _ _ => ⟨1, "", "boom"⟩

/-- A YAML parser that parses every document to `None` (as the empty document
parses). -/
def yamlNone : String → Except String (Option ConfigMap) := fun _ => .ok none

/-- A configuration carrying all four fields. -/
def goodConfig : ConfigMap := ⟨some "redzer", some ["work"], some "venv", some "requirements.txt"⟩

/-- The command line used in the `run_command` witness. -/
def cmdName : String := "cmd"

/-! ## The claims -/

/-- C4: for every prior state (any valid configuration picks the target
directory `pd`), after the directory-reset step the project directory's
children are exactly `modules`, `services`, `caching`, `tests`, `templates` —
no more, no fewer — each a directory, independently of the configuration.
The two hypotheses are filesystem sanity conditions Python guarantees: the
target is not a plain file (else `shutil.rmtree` raises), and a non-existent
directory has nothing below it. -/
theorem subdirectory_set_exact (st : WfState) (pd : FPath)
    (hf : st.fs.isFile pd = false)
    (hn : st.fs.existsPath pd = false → noneUnder st.fs.entries pd) :
    ∃ st1, create_directories st pd (pd ++ ["templates"]) = .ok st1
      ∧ st1.fs.childNames pd = ["templates", "tests", "caching", "services", "modules"]
      ∧ (∀ nm, nm ∈ st1.fs.childNames pd ↔
          (nm = "modules" ∨ nm = "services" ∨ nm = "caching" ∨ nm = "tests" ∨ nm = "templates"))
      ∧ (∀ d, d ∈ ["modules", "services", "caching", "tests", "templates"] →
          st1.fs.lookup (pd ++ [d]) = some .dir) := by
  obtain ⟨fs0, lg, hnu, hceq⟩ := create_directories_ok st pd hf hn
  refine ⟨_, hceq, ?_, ?_, ?_⟩
  · exact createdFS_childNames fs0 pd hnu
  · intro nm
    have hcn := createdFS_childNames fs0 pd hnu
    simp only [hcn]
    constructor
    · intro h
      simp at h
      tauto
    · intro h
      simp
      tauto
  · intro d hd
    exact fresh_lookup_subdir fs0 pd hnu d hd

/-- C4 witness: the empty filesystem with target `work/redzer`. -/
theorem subdirectory_set_exact_witness :
    ∃ st1, create_directories blankState ["work", "redzer"] (["work", "redzer"] ++ ["templates"])
        = .ok st1
      ∧ st1.fs.childNames ["work", "redzer"]
          = ["templates", "tests", "caching", "services", "modules"]
      ∧ (∀ nm, nm ∈ st1.fs.childNames ["work", "redzer"] ↔
          (nm = "modules" ∨ nm = "services" ∨ nm = "caching" ∨ nm = "tests" ∨ nm = "templates"))
      ∧ (∀ d, d ∈ ["modules", "services", "caching", "tests", "templates"] →
          st1.fs.lookup (["work", "redzer"] ++ [d]) = some .dir) :=
  subdirectory_set_exact blankState ["work", "redzer"] rfl
    (fun _ e he => absurd he (List.not_mem_nil e))

/-- C5: the destructive reset is idempotent and insensitive to prior state:
a second run succeeds and produces the identical project subtree
(`freshEntries pd` both times), and no file lies directly under the project
root after a reset — in particular any stray file placed there beforehand is
gone.  Hypotheses as in `subdirectory_set_exact`. -/
theorem destructive_reset_idempotent (st : WfState) (pd : FPath)
    (hf : st.fs.isFile pd = false)
    (hn : st.fs.existsPath pd = false → noneUnder st.fs.entries pd) :
    ∃ st1 st2,
      create_directories st pd (pd ++ ["templates"]) = .ok st1
      ∧ create_directories st1 pd (pd ++ ["templates"]) = .ok st2
      ∧ st1.fs.subtree pd = freshEntries pd
      ∧ st2.fs.subtree pd = st1.fs.subtree pd
      ∧ (∀ nm c, (pd ++ [nm], Node.file c) ∉ st1.fs.entries) := by
  obtain ⟨fs0, lg, hnu, hceq⟩ := create_directories_ok st pd hf hn
  have hsub1 : (createdFS fs0 pd (pd ++ ["templates"])).subtree pd = freshEntries pd :=
    createdFS_subtree fs0 pd hnu
  have hf2 : (createdFS fs0 pd (pd ++ ["templates"])).isFile pd = false :=
    fresh_isFile_pd fs0 pd hnu
  have he2 : (createdFS fs0 pd (pd ++ ["templates"])).existsPath pd = true :=
    fresh_existsPath_pd fs0 pd hnu
  obtain ⟨fs1, lg2, hnu2, hceq2⟩ :=
    create_directories_ok { fs := createdFS fs0 pd (pd ++ ["templates"]),
                            log := st.log ++ lg, issued := st.issued } pd hf2
      (fun h => absurd h (by simp [he2]))
  refine ⟨_, _, hceq, hceq2, hsub1, ?_, ?_⟩
  · rw [createdFS_subtree fs1 pd hnu2]
    exact hsub1.symm
  · intro nm c hmem
    have hmem2 : (pd ++ [nm], Node.file c)
        ∈ (createdFS fs0 pd (pd ++ ["templates"])).subtree pd := by
      simp [FS.subtree, List.mem_filter, hmem, leads_append]
    rw [hsub1] at hmem2
    simp [freshEntries, List.append_assoc, List.append_cancel_left_eq,
          app_eq_self_iff] at hmem2

/-- C5 witness: a prior state carrying the target directory with a stray file
directly under the project root. -/
theorem destructive_reset_idempotent_witness :
    ∃ st1 st2,
      create_directories
          ⟨⟨[(["work", "redzer", "junk.txt"], Node.file "stray"), (["work", "redzer"], Node.dir),
             (["work"], Node.dir)]⟩, [], []⟩
          ["work", "redzer"] (["work", "redzer"] ++ ["templates"]) = .ok st1
      ∧ create_directories st1 ["work", "redzer"] (["work", "redzer"] ++ ["templates"]) = .ok st2
      ∧ st1.fs.subtree ["work", "redzer"] = freshEntries ["work", "redzer"]
      ∧ st2.fs.subtree ["work", "redzer"] = st1.fs.subtree ["work", "redzer"]
      ∧ (∀ nm c, (["work", "redzer"] ++ [nm], Node.file c) ∉ st1.fs.entries) :=
  destructive_reset_idempotent
    ⟨⟨[(["work", "redzer", "junk.txt"], Node.file "stray"), (["work", "redzer"], Node.dir),
       (["work"], Node.dir)]⟩, [], []⟩
    ["work", "redzer"] rfl (fun h => by simp [FS.existsPath, FS.lookup, List.find?] at h)

/-- C7: when the target does not exist (so, Python-saneley, nothing lies
below it), the reset's delete branch is skipped — the result applies
`createdFS` to the untouched prior filesystem, no error is raised, and the
subtree produced is the same `freshEntries pd` structure that an existing
target yields (third conjunct). -/
theorem reset_tolerates_missing_target (st : WfState) (pd : FPath)
    (he : st.fs.existsPath pd = false)
    (hn : noneUnder st.fs.entries pd) :
    create_directories st pd (pd ++ ["templates"]) =
      .ok { fs := createdFS st.fs pd (pd ++ ["templates"]),
            log := st.log ++ createLogs (pd ++ ["templates"]),
            issued := st.issued }
    ∧ (createdFS st.fs pd (pd ++ ["templates"])).subtree pd = freshEntries pd
    ∧ (∀ st2 : WfState, st2.fs.isFile pd = false → st2.fs.existsPath pd = true →
        ∃ stR, create_directories st2 pd (pd ++ ["templates"]) = .ok stR
          ∧ stR.fs.subtree pd = (createdFS st.fs pd (pd ++ ["templates"])).subtree pd) := by
  refine ⟨create_directories_skip st pd _ he, createdFS_subtree st.fs pd hn, ?_⟩
  intro st2 hf2 he2
  obtain ⟨fs0, lg, hnu, hceq⟩ :=
    create_directories_ok st2 pd hf2 (fun h => absurd h (by simp [he2]))
  exact ⟨_, hceq, by rw [createdFS_subtree fs0 pd hnu, createdFS_subtree st.fs pd hn]⟩

/-- C7 witness: the blank state, target `work/redzer`. -/
theorem reset_tolerates_missing_target_witness :
    create_directories blankState ["work", "redzer"] (["work", "redzer"] ++ ["templates"]) =
      .ok { fs := createdFS blankState.fs ["work", "redzer"] (["work", "redzer"] ++ ["templates"]),
            log := blankState.log ++ createLogs (["work", "redzer"] ++ ["templates"]),
            issued := blankState.issued }
    ∧ (createdFS blankState.fs ["work", "redzer"] (["work", "redzer"] ++ ["templates"])).subtree
        ["work", "redzer"] = freshEntries ["work", "redzer"]
    ∧ (∀ st2 : WfState, st2.fs.isFile ["work", "redzer"] = false →
        st2.fs.existsPath ["work", "redzer"] = true →
        ∃ stR, create_directories st2 ["work", "redzer"] (["work", "redzer"] ++ ["templates"])
            = .ok stR
          ∧ stR.fs.subtree ["work", "redzer"]
              = (createdFS blankState.fs ["work", "redzer"]
                  (["work", "redzer"] ++ ["templates"])).subtree ["work", "redzer"]) :=
  reset_tolerates_missing_target blankState ["work", "redzer"] rfl
    (fun e he => absurd he (List.not_mem_nil e))

/-- C8: a configuration record missing `venv_dir` makes `initialize_project`
fail with a `KeyError` (on `venv_dir`, or on an earlier field also missing),
and the error carries the entry state unchanged: it is raised before any
filesystem action, in particular before the destructive reset. -/
theorem missing_venv_fails_before_destruction (w : World) (st : WfState) (m : ConfigMap)
    (hv : m.venv_dir = none) :
    ∃ k, initialize_project w (some m) st = .error (Err.keyLookup k, st) := by
  cases hpn : m.project_name with
  | none =>
    exact ⟨"project_name", by simp [initialize_project, cfgGet, hpn, exceptBind_error]⟩
  | some n =>
    cases hpd : m.project_dir with
    | none =>
      exact ⟨"project_dir", by
        simp [initialize_project, cfgGet, hpn, hpd, exceptBind_ok, exceptBind_error]⟩
    | some pdr =>
      exact ⟨"venv_dir", by
        simp [initialize_project, cfgGet, hpn, hpd, hv, exceptBind_ok, exceptBind_error]⟩

/-- C8 witness: a full configuration with `venv_dir` removed, against a
filesystem that holds a populated project tree which must stay untouched. -/
theorem missing_venv_fails_before_destruction_witness :
    ∃ k, initialize_project
        ⟨⟨[(["work", "redzer"], Node.dir)]⟩, [("PATH", "/usr/bin")], yamlNone, okExec⟩
        (some ⟨some "redzer", some ["work"], none, some "requirements.txt"⟩)
        ⟨⟨[(["work", "redzer"], Node.dir)]⟩, [], []⟩
      = .error (Err.keyLookup k, ⟨⟨[(["work", "redzer"], Node.dir)]⟩, [], []⟩) :=
  missing_venv_fails_before_destruction
    ⟨⟨[(["work", "redzer"], Node.dir)]⟩, [("PATH", "/usr/bin")], yamlNone, okExec⟩
    ⟨⟨[(["work", "redzer"], Node.dir)]⟩, [], []⟩
    ⟨some "redzer", some ["work"], none, some "requirements.txt"⟩ rfl

/-- C1: command failure is non-fatal.  First conjunct: whenever a command
exits non-zero, `run_command` returns normally (it is a total function whose
result is the input state with the command recorded and the failure plus the
captured stderr logged) — nothing is raised.  Second conjunct: under the
closed-form run, even when the environment-creation command (the head of
`redzerCommands`) fails, the full five-command list is still issued, so the
dependency-install, packager-install, build and installer-compile commands
are all attempted. -/
theorem run_command_nonfatal_sequence_continues :
    (∀ (ex : String → Option EnvMap → CmdResult) (st0 : WfState) (command : String)
        (env : Option EnvMap), (ex command env).exitCode ≠ 0 →
        run_command ex st0 command env =
          { st0 with issued := st0.issued ++ [command],
                     log := st0.log ++ [.error s!"Command failed: {command}",
                                        .error (ex command env).stderr] })
    ∧ (∀ (w : World) (m : ConfigMap) (st : WfState) (n : String) (pdr : FPath)
        (vd rq pv : String),
        m.project_name = some n → m.project_dir = some pdr → m.venv_dir = some vd →
        m.requirements_file = some rq →
        st.fs.isFile (pdr ++ [n]) = false →
        (st.fs.existsPath (pdr ++ [n]) = false → noneUnder st.fs.entries (pdr ++ [n])) →
        envGet w.environ "PATH" = some pv →
        (w.exec ((redzerCommands (pdr ++ [n]) vd rq).headI) none).exitCode ≠ 0 →
        ∃ st', initialize_project w (some m) st = .ok st'
          ∧ st'.issued = st.issued ++ redzerCommands (pdr ++ [n]) vd rq) := by
  constructor
  · exact run_command_fail
  · intro w m st n pdr vd rq pv h1 h2 h3 h4 hf hn hp _hfail
    obtain ⟨st', ha, hb, _⟩ := initialize_project_run w m st n pdr vd rq pv h1 h2 h3 h4 hf hn hp
    exact ⟨st', ha, hb⟩

/-- C1 witness: a shell where every command (in particular environment
creation) fails with exit code 1; the run still completes and issues all five
commands. -/
theorem run_command_nonfatal_sequence_continues_witness :
    (run_command failExec blankState cmdName none =
      { blankState with issued := blankState.issued ++ [cmdName],
                        log := blankState.log ++ [.error s!"Command failed: {cmdName}",
                                                  .error (failExec cmdName none).stderr] })
    ∧ (∃ st', initialize_project ⟨emptyFS, [("PATH", "/usr/bin")], yamlNone, failExec⟩
          (some goodConfig) blankState = .ok st'
        ∧ st'.issued = blankState.issued ++ redzerCommands (["work"] ++ ["redzer"])
            "venv" "requirements.txt") :=
  ⟨run_command_nonfatal_sequence_continues.1 failExec blankState cmdName none (by decide),
   run_command_nonfatal_sequence_continues.2
    ⟨emptyFS, [("PATH", "/usr/bin")], yamlNone, failExec⟩ goodConfig blankState
    "redzer" ["work"] "venv" "requirements.txt" "/usr/bin"
    rfl rfl rfl rfl rfl (fun _ e he => absurd he (List.not_mem_nil e)) rfl (by decide)⟩

/-- C2: on every configuration on which `initialize_project` completes, the
file written at the project root is byte-identical to the corresponding
template file, for all three pairs — both sides read back as exactly the
template string constant, so no transformation or substitution happened. -/
theorem template_instantiation_byte_equal (w : World) (m : ConfigMap) (st : WfState)
    (n : String) (pdr : FPath) (vd rq pv : String)
    (h1 : m.project_name = some n) (h2 : m.project_dir = some pdr)
    (h3 : m.venv_dir = some vd) (h4 : m.requirements_file = some rq)
    (hf : st.fs.isFile (pdr ++ [n]) = false)
    (hn : st.fs.existsPath (pdr ++ [n]) = false → noneUnder st.fs.entries (pdr ++ [n]))
    (hp : envGet w.environ "PATH" = some pv) :
    ∃ st', initialize_project w (some m) st = .ok st'
      ∧ st'.fs.readFile ((pdr ++ [n]) ++ ["setup.py"])
          = st'.fs.readFile (((pdr ++ [n]) ++ ["templates"]) ++ ["setup_template.py"])
      ∧ st'.fs.readFile ((pdr ++ [n]) ++ ["setup.py"]) = some setup_content
      ∧ st'.fs.readFile ((pdr ++ [n]) ++ ["redzer.spec"])
          = st'.fs.readFile (((pdr ++ [n]) ++ ["templates"]) ++ ["redzer_template.spec"])
      ∧ st'.fs.readFile ((pdr ++ [n]) ++ ["redzer.spec"]) = some redzer_spec_content
      ∧ st'.fs.readFile ((pdr ++ [n]) ++ ["redzer_installer.iss"])
          = st'.fs.readFile (((pdr ++ [n]) ++ ["templates"]) ++ ["redzer_installer_template.iss"])
      ∧ st'.fs.readFile ((pdr ++ [n]) ++ ["redzer_installer.iss"])
          = some redzer_installer_content := by
  obtain ⟨st', ha, _, r1, r2, r3, r4, r5, r6⟩ :=
    initialize_project_run w m st n pdr vd rq pv h1 h2 h3 h4 hf hn hp
  exact ⟨st', ha, r1.trans r4.symm, r1, r2.trans r5.symm, r2, r3.trans r6.symm, r3⟩

/-- C2 witness: the blank state and full configuration. -/
theorem template_instantiation_byte_equal_witness :
    ∃ st', initialize_project ⟨emptyFS, [("PATH", "/usr/bin")], yamlNone, okExec⟩
        (some goodConfig) blankState = .ok st'
      ∧ st'.fs.readFile ((["work"] ++ ["redzer"]) ++ ["setup.py"])
          = st'.fs.readFile (((["work"] ++ ["redzer"]) ++ ["templates"]) ++ ["setup_template.py"])
      ∧ st'.fs.readFile ((["work"] ++ ["redzer"]) ++ ["setup.py"]) = some setup_content
      ∧ st'.fs.readFile ((["work"] ++ ["redzer"]) ++ ["redzer.spec"])
          = st'.fs.readFile (((["work"] ++ ["redzer"]) ++ ["templates"])
              ++ ["redzer_template.spec"])
      ∧ st'.fs.readFile ((["work"] ++ ["redzer"]) ++ ["redzer.spec"]) = some redzer_spec_content
      ∧ st'.fs.readFile ((["work"] ++ ["redzer"]) ++ ["redzer_installer.iss"])
          = st'.fs.readFile (((["work"] ++ ["redzer"]) ++ ["templates"])
              ++ ["redzer_installer_template.iss"])
      ∧ st'.fs.readFile ((["work"] ++ ["redzer"]) ++ ["redzer_installer.iss"])
          = some redzer_installer_content :=
  template_instantiation_byte_equal
    ⟨emptyFS, [("PATH", "/usr/bin")], yamlNone, okExec⟩ goodConfig blankState
    "redzer" ["work"] "venv" "requirements.txt" "/usr/bin"
    rfl rfl rfl rfl rfl (fun _ e he => absurd he (List.not_mem_nil e)) rfl

/-- C6: every completed run issues exactly the five external commands of
`redzerCommands`, in that fixed order — environment creation, dependency
install, packager install, build against the spec file, installer
compilation — appended to the issue trace one after another. -/
theorem five_commands_in_order (w : World) (m : ConfigMap) (st : WfState)
    (n : String) (pdr : FPath) (vd rq pv : String)
    (h1 : m.project_name = some n) (h2 : m.project_dir = some pdr)
    (h3 : m.venv_dir = some vd) (h4 : m.requirements_file = some rq)
    (hf : st.fs.isFile (pdr ++ [n]) = false)
    (hn : st.fs.existsPath (pdr ++ [n]) = false → noneUnder st.fs.entries (pdr ++ [n]))
    (hp : envGet w.environ "PATH" = some pv) :
    ∃ st', initialize_project w (some m) st = .ok st'
      ∧ st'.issued = st.issued ++ redzerCommands (pdr ++ [n]) vd rq
      ∧ (redzerCommands (pdr ++ [n]) vd rq).length = 5 := by
  obtain ⟨st', ha, hb, _⟩ := initialize_project_run w m st n pdr vd rq pv h1 h2 h3 h4 hf hn hp
  exact ⟨st', ha, hb, rfl⟩

/-- C6 witness: the blank state and full configuration with a succeeding
shell. -/
theorem five_commands_in_order_witness :
    ∃ st', initialize_project ⟨emptyFS, [("PATH", "/usr/bin")], yamlNone, okExec⟩
        (some goodConfig) blankState = .ok st'
      ∧ st'.issued = blankState.issued
          ++ redzerCommands (["work"] ++ ["redzer"]) "venv" "requirements.txt"
      ∧ (redzerCommands (["work"] ++ ["redzer"]) "venv" "requirements.txt").length = 5 :=
  five_commands_in_order
    ⟨emptyFS, [("PATH", "/usr/bin")], yamlNone, okExec⟩ goodConfig blankState
    "redzer" ["work"] "venv" "requirements.txt" "/usr/bin"
    rfl rfl rfl rfl rfl (fun _ e he => absurd he (List.not_mem_nil e)) rfl

/-- A configuration whose project name is `myapp`, used to exhibit that the
generated file names do not follow the project name. -/
def nameConfig : ConfigMap := ⟨some "myapp", some ["work"], some "venv", some "reqs.txt"⟩

/-- The full workflow run on `nameConfig` over an empty filesystem. -/
def nameRun : Except (Err × WfState) WfState :=
  initialize_project ⟨emptyFS, [("PATH", "/usr/bin")], yamlNone, okExec⟩
    (some nameConfig) blankState

/-- C9 counterexample: with `project_name = "myapp"` the run writes
`redzer.spec` / `redzer_installer.iss` (and the `redzer_*` templates), not
`myapp.spec` / `myapp_installer.iss`: the spec- and installer-file names are
hard-coded literals, not parameterized by the project name. -/
theorem root_filenames_not_parameterized_cex :
    (nameRun.toOption.map (fun st =>
      (st.fs.readFile ["work", "myapp", "myapp.spec"],
       st.fs.readFile ["work", "myapp", "redzer.spec"],
       st.fs.readFile ["work", "myapp", "templates", "myapp_template.spec"],
       st.fs.readFile ["work", "myapp", "myapp_installer.iss"],
       st.fs.readFile ["work", "myapp", "redzer_installer.iss"])))
    = some (none, some redzer_spec_content, none, none, some redzer_installer_content) := by
  rfl

/-- C9 amended: for every configuration the files written at the project root
are named `setup.py`, `redzer.spec` and `redzer_installer.iss`, and the
template files `setup_template.py`, `redzer_template.spec` and
`redzer_installer_template.iss` — fixed literal names, whatever
`project_name` is. -/
theorem root_filenames_fixed (w : World) (m : ConfigMap) (st : WfState)
    (n : String) (pdr : FPath) (vd rq pv : String)
    (h1 : m.project_name = some n) (h2 : m.project_dir = some pdr)
    (h3 : m.venv_dir = some vd) (h4 : m.requirements_file = some rq)
    (hf : st.fs.isFile (pdr ++ [n]) = false)
    (hn : st.fs.existsPath (pdr ++ [n]) = false → noneUnder st.fs.entries (pdr ++ [n]))
    (hp : envGet w.environ "PATH" = some pv) :
    ∃ st', initialize_project w (some m) st = .ok st'
      ∧ (st'.fs.readFile ((pdr ++ [n]) ++ ["setup.py"])).isSome = true
      ∧ (st'.fs.readFile ((pdr ++ [n]) ++ ["redzer.spec"])).isSome = true
      ∧ (st'.fs.readFile ((pdr ++ [n]) ++ ["redzer_installer.iss"])).isSome = true
      ∧ (st'.fs.readFile (((pdr ++ [n]) ++ ["templates"]) ++ ["setup_template.py"])).isSome = true
      ∧ (st'.fs.readFile (((pdr ++ [n]) ++ ["templates"]) ++ ["redzer_template.spec"])).isSome
          = true
      ∧ (st'.fs.readFile (((pdr ++ [n]) ++ ["templates"])
          ++ ["redzer_installer_template.iss"])).isSome = true := by
  obtain ⟨st', ha, _, r1, r2, r3, r4, r5, r6⟩ :=
    initialize_project_run w m st n pdr vd rq pv h1 h2 h3 h4 hf hn hp
  exact ⟨st', ha, by rw [r1]; rfl, by rw [r2]; rfl, by rw [r3]; rfl,
         by rw [r4]; rfl, by rw [r5]; rfl, by rw [r6]; rfl⟩

/-- C9 amended witness: blank state, `project_name = "myapp"`. -/
theorem root_filenames_fixed_witness :
    ∃ st', initialize_project ⟨emptyFS, [("PATH", "/usr/bin")], yamlNone, okExec⟩
        (some nameConfig) blankState = .ok st'
      ∧ (st'.fs.readFile ((["work"] ++ ["myapp"]) ++ ["setup.py"])).isSome = true
      ∧ (st'.fs.readFile ((["work"] ++ ["myapp"]) ++ ["redzer.spec"])).isSome = true
      ∧ (st'.fs.readFile ((["work"] ++ ["myapp"]) ++ ["redzer_installer.iss"])).isSome = true
      ∧ (st'.fs.readFile (((["work"] ++ ["myapp"]) ++ ["templates"])
          ++ ["setup_template.py"])).isSome = true
      ∧ (st'.fs.readFile (((["work"] ++ ["myapp"]) ++ ["templates"])
          ++ ["redzer_template.spec"])).isSome = true
      ∧ (st'.fs.readFile (((["work"] ++ ["myapp"]) ++ ["templates"])
          ++ ["redzer_installer_template.iss"])).isSome = true :=
  root_filenames_fixed
    ⟨emptyFS, [("PATH", "/usr/bin")], yamlNone, okExec⟩ nameConfig blankState
    "myapp" ["work"] "venv" "reqs.txt" "/usr/bin"
    rfl rfl rfl rfl rfl (fun _ e he => absurd he (List.not_mem_nil e)) rfl

/-- Closed form of the fatal branch: nothing at the configuration path means
the error is logged and the process exits with code 1, before any filesystem
action or command. -/
theorem mainRun_missing (w : World) (p : FPath) (h : w.fs.existsPath p = false) :
    mainRun w p =
      (.fatalExit 1,
       ⟨w.fs, [.error s!"Configuration file not found: {render p}"], []⟩) := by
  simp [mainRun, load_config, h]

/-- C3 amended: for every path at which no filesystem entry exists at all,
the run terminates through the explicit `exit(1)` after logging the
missing-configuration error, with the filesystem unchanged, no log beyond
that line and no command issued; and conversely the explicit-exit outcome
arises only this way, always with code 1 — it is the only hard-failure exit
path.  (As stated over paths that merely do not name an existing *file* the
claim fails: an existing directory at the path passes `os.path.exists`, so
the run instead dies of an unlogged `open` error — see the counterexample.) -/
theorem missing_config_fatal_exit :
    (∀ (w : World) (p : FPath), w.fs.existsPath p = false →
        mainRun w p =
          (.fatalExit 1,
           ⟨w.fs, [.error s!"Configuration file not found: {render p}"], []⟩))
    ∧ (∀ (w : World) (p : FPath) (c : Nat), (mainRun w p).1 = .fatalExit c →
        (w.fs.existsPath p = false ∧ c = 1)) := by
  constructor
  · exact mainRun_missing
  · intro w p c h
    by_cases he : w.fs.existsPath p = true
    · exfalso
      simp only [mainRun, load_config, he, if_true] at h
      cases hr : w.fs.readFile p with
      | none => simp [hr] at h
      | some text =>
        cases hy : w.yamlParse text with
        | error msg => simp [hr, hy] at h
        | ok cfg =>
          simp only [hr, hy] at h
          cases hi : initialize_project w cfg { fs := w.fs, log := [], issued := [] } with
          | error epair =>
            obtain ⟨e, stx⟩ := epair
            simp [hi] at h
          | ok stx => simp [hi] at h
    · have he2 : w.fs.existsPath p = false := by
        revert he; cases w.fs.existsPath p <;> simp
      refine ⟨he2, ?_⟩
      rw [mainRun_missing w p he2] at h
      simpa using h.symm

/-- The path handed to the workflow in the C3 witness. -/
def nopePath : FPath := ["nope.yaml"]

/-- A world whose filesystem is empty: nothing exists at any path. -/
def absentWorld : World := ⟨emptyFS, [], yamlNone, okExec⟩

/-- C3 witness: a nonexistent configuration path exits fatally with code 1,
the logged error, the untouched filesystem and no command; and conversely. -/
theorem missing_config_fatal_exit_witness :
    (mainRun absentWorld nopePath =
      (.fatalExit 1,
       ⟨absentWorld.fs, [.error s!"Configuration file not found: {render nopePath}"], []⟩))
    ∧ (absentWorld.fs.existsPath nopePath = false ∧ 1 = 1) :=
  ⟨missing_config_fatal_exit.1 absentWorld nopePath rfl,
   missing_config_fatal_exit.2 absentWorld nopePath 1 rfl⟩

/-- A world with a directory (not a file) at the configuration path. -/
def dirWorld : World := ⟨⟨[(["cfg"], Node.dir)]⟩, [], yamlNone, okExec⟩

/-- C3 counterexample: `["cfg"]` does not name an existing file (it is a
directory), yet the run neither takes the fatal-exit path nor logs anything:
it dies of the uncaught `open` error.  This refutes the claim as stated,
which promises a logged non-zero exit for every path not naming an existing
file. -/
theorem missing_config_cex :
    dirWorld.fs.isFile ["cfg"] = false
    ∧ (mainRun dirWorld ["cfg"]).1 = .raised (.openFailed ["cfg"])
    ∧ (mainRun dirWorld ["cfg"]).1.isFatal = false
    ∧ (mainRun dirWorld ["cfg"]).2.log = [] := by
  exact ⟨rfl, rfl, rfl, rfl⟩

/-- C10: the fatal exit is triggered only by nonexistence.  First conjunct:
for every path naming an existing file, `load_config` hands the parser's
verdict on the file's text straight through — no validation, no `exit`
(the result is `next` on success, an uncaught parse error otherwise, never
`exit`).  Second conjunct: an existing but empty configuration file (which
YAML parses to `None`) passes the load step, and the workflow then dies of a
lookup error (subscripting `None`), not through the fatal exit path. -/
theorem config_load_exit_only_on_missing :
    (∀ (w : World) (p : FPath) (lg : List LogEntry) (text : String),
        w.fs.readFile p = some text →
        load_config w p lg = (lg, match w.yamlParse text with
          | .ok c => Step.next c
          | .error msg => Step.raise (.parseFailure msg)))
    ∧ (∀ (w : World) (p : FPath),
        w.fs.readFile p = some "" → w.yamlParse "" = .ok none →
        ∃ k, (mainRun w p).1 = .raised (.subscriptNone k)
          ∧ (Err.subscriptNone k).isLookup = true) := by
  constructor
  · intro w p lg text h
    have he := existsPath_of_readFile h
    simp only [load_config, he, if_true, h]
    cases w.yamlParse text <;> rfl
  · intro w p h hy
    have he := existsPath_of_readFile h
    refine ⟨"project_name", ?_, rfl⟩
    simp only [mainRun, load_config, he, if_true, h, hy]
    simp [initialize_project, cfgGet, exceptBind_error]

/-- A world with an empty configuration file at `config.yaml`. -/
def emptyCfgWorld : World := ⟨⟨[(["config.yaml"], Node.file "")]⟩, [], yamlNone, okExec⟩

/-- C10 witness: the empty configuration file loads without exiting and the
run then fails with the `None`-subscript lookup error. -/
theorem config_load_exit_only_on_missing_witness :
    (load_config emptyCfgWorld ["config.yaml"] [] = ([], Step.next none))
    ∧ (∃ k, (mainRun emptyCfgWorld ["config.yaml"]).1 = .raised (.subscriptNone k)
        ∧ (Err.subscriptNone k).isLookup = true) :=
  ⟨by
    have h := config_load_exit_only_on_missing.1 emptyCfgWorld ["config.yaml"] [] "" rfl
    simpa [yamlNone] using h,
   config_load_exit_only_on_missing.2 emptyCfgWorld ["config.yaml"] rfl rfl⟩
